import Mathlib

/-!
Shallow embedding of `src/src/safety_guardian/ooda_loop.py`: a token-bucket
rate limiter, a circuit breaker, a sliding-window health monitor, and the
OODA (Observe-Orient-Decide-Act) safety-guardian loop combining them.

Time is modelled by rational numbers: every method of the source that reads
the wall clock (`time.time()`) receives the corresponding instant (or the
elapsed duration of the wrapped operation) as an explicit argument.
A wrapped operation is modelled by its outcome: `true` when it returns
normally, `false` when it raises; the breaker's `expected_exception` is the
default `Exception`, so every raise counts as a failure.
-/

/-- `CircuitBreakerState` enum of the source: CLOSED / OPEN / HALF_OPEN. -/
inductive CircuitBreakerState where
  | CLOSED
  | OPEN
  | HALF_OPEN
deriving DecidableEq, Repr

/-- `RateLimiter`: token-bucket limiter. `tokens` is real-valued in the
source (a float); it is modelled by a rational. -/
structure RateLimiter where
  requests_per_second : ℚ
  burst_size : ℚ
  tokens : ℚ
  last_update : ℚ
deriving DecidableEq, Repr

/-- `RateLimiter.__init__(requests_per_second, burst_size)`, with
construction instant `now` standing for the `time.time()` call. -/
def RateLimiter.init (requests_per_second : ℚ) (burst_size : ℚ) (now : ℚ) :
    RateLimiter :=
  { requests_per_second := requests_per_second
    burst_size := burst_size
    tokens := burst_size
    last_update := now }

/-- `RateLimiter.allow_request`: refill `elapsed * rate` tokens capped at
`burst_size`, update `last_update`, then consume one token if at least one
is available. Returns the boolean verdict together with the updated
limiter. -/
def RateLimiter.allow_request (rl : RateLimiter) (now : ℚ) :
    Bool × RateLimiter :=
  let time_passed := now - rl.last_update
  let tokens :=
    min rl.burst_size (rl.tokens + time_passed * rl.requests_per_second)
  if 1 ≤ tokens then
    (true, { rl with tokens := tokens - 1, last_update := now })
  else
    (false, { rl with tokens := tokens, last_update := now })

/-- The refilled token count computed at the top of `allow_request`. -/
def RateLimiter.refilled (rl : RateLimiter) (now : ℚ) : ℚ :=
  min rl.burst_size (rl.tokens + (now - rl.last_update) * rl.requests_per_second)

/-- `CircuitBreaker` state: threshold and timeout are constants, the rest is
mutable. `last_failure_time` starts as `None` in the source, hence `Option`. -/
structure CircuitBreaker where
  failure_threshold : ℕ
  recovery_timeout : ℚ
  failure_count : ℕ
  last_failure_time : Option ℚ
  state : CircuitBreakerState
deriving DecidableEq, Repr

/-- `CircuitBreaker.__init__(failure_threshold, recovery_timeout)`. -/
def CircuitBreaker.init (failure_threshold : ℕ) (recovery_timeout : ℚ) :
    CircuitBreaker :=
  { failure_threshold := failure_threshold
    recovery_timeout := recovery_timeout
    failure_count := 0
    last_failure_time := none
    state := CircuitBreakerState.CLOSED }

/-- Outcome of `CircuitBreaker.call`:
`Success` — the wrapped function returned and its result was returned;
`Failed` — the wrapped function raised, `_on_failure` ran, the exception
was re-raised; `RejectedOpen` — the breaker was OPEN within its recovery
timeout and raised `Exception("Circuit breaker is OPEN")` without touching
the function; `TimeError` — the breaker was OPEN with
`last_failure_time = None`, so `time.time() - None` raised a `TypeError`
before anything else. -/
inductive CallResult where
  | Success
  | Failed
  | RejectedOpen
  | TimeError
deriving DecidableEq, Repr

/-- Result of `CircuitBreaker.call`: the outcome, whether the wrapped
function was actually invoked, and the updated breaker. -/
structure CallOut where
  result : CallResult
  invoked : Bool
  breaker : CircuitBreaker
deriving DecidableEq, Repr

/-- `CircuitBreaker._on_success`: reset the failure count and close. -/
def CircuitBreaker._on_success (cb : CircuitBreaker) : CircuitBreaker :=
  { cb with failure_count := 0, state := CircuitBreakerState.CLOSED }

/-- `CircuitBreaker._on_failure`, executed at instant `now`: increment the
failure count, stamp the failure time, and open the breaker once the count
reaches the threshold. -/
def CircuitBreaker._on_failure (cb : CircuitBreaker) (now : ℚ) :
    CircuitBreaker :=
  let failure_count := cb.failure_count + 1
  { cb with
    failure_count := failure_count
    last_failure_time := some now
    state :=
      if cb.failure_threshold ≤ failure_count then CircuitBreakerState.OPEN
      else cb.state }

/-- The `try` block of `CircuitBreaker.call`: run the wrapped function
(succeeding iff `ok`), then `_on_success` or `_on_failure`. The failure is
stamped at `now + dur`, the instant at which the function finished. -/
def CircuitBreaker.attempt (cb : CircuitBreaker) (now : ℚ) (ok : Bool)
    (dur : ℚ) : CallOut :=
  if ok then
    { result := CallResult.Success, invoked := true, breaker := cb._on_success }
  else
    { result := CallResult.Failed, invoked := true
      breaker := cb._on_failure (now + dur) }

/-- `CircuitBreaker.call(func)` entered at instant `now`, where the wrapped
function takes `dur` seconds and succeeds iff `ok`. While OPEN, the call is
rejected unless `now - last_failure_time > recovery_timeout` (strictly), in
which case the state moves to HALF_OPEN and the function is attempted. -/
def CircuitBreaker.call (cb : CircuitBreaker) (now : ℚ) (ok : Bool)
    (dur : ℚ) : CallOut :=
  if cb.state = CircuitBreakerState.OPEN then
    match cb.last_failure_time with
    | none =>
      { result := CallResult.TimeError, invoked := false, breaker := cb }
    | some t =>
      if cb.recovery_timeout < now - t then
        CircuitBreaker.attempt
          { cb with state := CircuitBreakerState.HALF_OPEN } now ok dur
      else
        { result := CallResult.RejectedOpen, invoked := false, breaker := cb }
  else CircuitBreaker.attempt cb now ok dur

/-- `HealthMonitor`: three deques of capacity `window_size`, appended in
lockstep by `record_request`, modelled as one list of
`(response_time, is_error)` samples, oldest first. -/
structure HealthMonitor where
  window_size : ℕ
  samples : List (ℚ × Bool)
deriving DecidableEq, Repr

/-- `HealthMonitor.__init__(window_size)`. -/
def HealthMonitor.init (window_size : ℕ) : HealthMonitor :=
  { window_size := window_size, samples := [] }

/-- `HealthMonitor.record_request`: append the sample; the deques' `maxlen`
evicts from the left so that only the `window_size` most recent remain. -/
def HealthMonitor.record_request (hm : HealthMonitor) (response_time : ℚ)
    (is_error : Bool) : HealthMonitor :=
  let s := hm.samples ++ [(response_time, is_error)]
  { hm with samples := s.drop (s.length - hm.window_size) }

/-- The metrics dictionary returned by `HealthMonitor.get_health_metrics`. -/
structure HealthMetrics where
  avg_response_time : ℚ
  error_rate : ℚ
  total_requests : ℕ
  healthy : Bool
deriving DecidableEq, Repr

/-- `HealthMonitor.get_health_metrics`: zero-sample default, else averages
over the window; `total_requests` is the sum of the all-ones deque, i.e.
the sample count; healthy iff avg < 5.0 and error rate < 0.1. -/
def HealthMonitor.get_health_metrics (hm : HealthMonitor) : HealthMetrics :=
  if hm.samples.isEmpty then
    { avg_response_time := 0, error_rate := 0, total_requests := 0
      healthy := true }
  else
    let n := hm.samples.length
    let avg_response_time := (hm.samples.map Prod.fst).sum / (n : ℚ)
    let total_errors := (hm.samples.filter (fun s => s.2)).length
    let error_rate := (total_errors : ℚ) / (n : ℚ)
    { avg_response_time := avg_response_time
      error_rate := error_rate
      total_requests := n
      healthy := decide (avg_response_time < 5 ∧ error_rate < 1/10) }

/-- The guardian: limiter, breaker, monitor and the `operational` flag. -/
structure OODALoop where
  rate_limiter : RateLimiter
  circuit_breaker : CircuitBreaker
  health_monitor : HealthMonitor
  operational : Bool
deriving DecidableEq, Repr

/-- `OODALoop.__init__(requests_per_second, failure_threshold,
recovery_timeout)` at construction instant `now`: the limiter keeps its
default burst size 20 and the monitor its default window size 100. -/
def OODALoop.init (requests_per_second : ℚ) (failure_threshold : ℕ)
    (recovery_timeout : ℚ) (now : ℚ) : OODALoop :=
  { rate_limiter := RateLimiter.init requests_per_second 20 now
    circuit_breaker := CircuitBreaker.init failure_threshold recovery_timeout
    health_monitor := HealthMonitor.init 100
    operational := true }

/-- The observations dictionary built by `OODALoop.observe`. -/
structure Observations where
  health_metrics : HealthMetrics
  circuit_breaker_state : CircuitBreakerState
  rate_limiter_tokens : ℚ
  operational : Bool
deriving DecidableEq, Repr

/-- `OODALoop.observe`: snapshot of metrics, breaker state, tokens, flag. -/
def OODALoop.observe (g : OODALoop) : Observations :=
  { health_metrics := g.health_monitor.get_health_metrics
    circuit_breaker_state := g.circuit_breaker.state
    rate_limiter_tokens := g.rate_limiter.tokens
    operational := g.operational }

/-- The analysis dictionary built by `OODALoop.orient`. -/
structure Analysis where
  system_healthy : Bool
  high_error_rate : Bool
  slow_responses : Bool
  circuit_open : Bool
  rate_limited : Bool
deriving DecidableEq, Repr

/-- `OODALoop.orient`: derive the boolean flags from the observations. -/
def OODALoop.orient (observations : Observations) : Analysis :=
  { system_healthy := observations.health_metrics.healthy
    high_error_rate := decide (observations.health_metrics.error_rate > 1/5)
    slow_responses :=
      decide (observations.health_metrics.avg_response_time > 10)
    circuit_open :=
      decide (observations.circuit_breaker_state = CircuitBreakerState.OPEN)
    rate_limited := decide (observations.rate_limiter_tokens < 1) }

/-- The four decision strings of `OODALoop.decide`. -/
inductive Decision where
  | MAINTAIN_CIRCUIT_OPEN
  | TRIP_CIRCUIT_BREAKER
  | ENABLE_DEGRADED_MODE
  | NORMAL_OPERATION
deriving DecidableEq, Repr

/-- `OODALoop.decide`: pick a decision from the analysis flags. -/
def OODALoop.decide (analysis : Analysis) : Decision :=
  if analysis.circuit_open then Decision.MAINTAIN_CIRCUIT_OPEN
  else if analysis.high_error_rate || analysis.slow_responses then
    Decision.TRIP_CIRCUIT_BREAKER
  else if !analysis.system_healthy then Decision.ENABLE_DEGRADED_MODE
  else Decision.NORMAL_OPERATION

/-- `OODALoop.act`: apply the decision's side effects. `TRIP_CIRCUIT_BREAKER`
forces the breaker's state to OPEN directly, leaving its counters alone. -/
def OODALoop.act (g : OODALoop) (decision : Decision) : OODALoop :=
  if decision = Decision.TRIP_CIRCUIT_BREAKER then
    { g with
      circuit_breaker :=
        { g.circuit_breaker with state := CircuitBreakerState.OPEN }
      operational := false }
  else if decision = Decision.ENABLE_DEGRADED_MODE then
    { g with operational := false }
  else if decision = Decision.NORMAL_OPERATION then
    { g with operational := true }
  else g

/-- Result of `OODALoop.check_safety`: the boolean verdict, whether
`circuit_breaker.call` was reached, and the updated guardian. -/
structure SafetyResult where
  ok : Bool
  breaker_called : Bool
  st : OODALoop
deriving DecidableEq, Repr

/-- The observe-orient-decide-act prefix of `check_safety`: one OODA cycle
applied to the guardian. -/
def OODALoop.afterAct (g : OODALoop) : OODALoop :=
  let observations := g.observe
  let analysis := OODALoop.orient observations
  let decision := OODALoop.decide analysis
  g.act decision

/-- The gating suffix of `check_safety`, run on the post-Act guardian: the
rate-limit gate, the open-breaker gate, the degraded-mode gate, and finally
the protected execution whose outcome is recorded into the health
monitor. -/
def OODALoop.gate_phase (g : OODALoop) (now : ℚ) (op : Option Bool)
    (dur : ℚ) : SafetyResult :=
  let gate := g.rate_limiter.allow_request now
  let g := { g with rate_limiter := gate.2 }
  if !gate.1 then
    { ok := false, breaker_called := false, st := g }
  else if g.circuit_breaker.state = CircuitBreakerState.OPEN then
    { ok := false, breaker_called := false, st := g }
  else if g.operational then
    match op with
    | none =>
      { ok := true, breaker_called := false
        st :=
          { g with
            health_monitor := g.health_monitor.record_request dur false } }
    | some ok =>
      let c := g.circuit_breaker.call now ok dur
      let g := { g with circuit_breaker := c.breaker }
      if c.result = CallResult.Success then
        { ok := true, breaker_called := true
          st :=
            { g with
              health_monitor := g.health_monitor.record_request dur false } }
      else
        { ok := false, breaker_called := true
          st :=
            { g with
              health_monitor := g.health_monitor.record_request dur true } }
  else
    { ok := false, breaker_called := false, st := g }

/-- `OODALoop.check_safety(request_func)` at instant `now`. `op` is `none`
when no `request_func` is supplied, `some ok` when one is supplied that
succeeds iff `ok`; `dur` is the measured response time. The method runs one
OODA cycle and then the gates; its `try/except Exception` around the
protected execution catches every raise there, and nothing outside that
block can raise, so the method always returns a boolean — the embedding is
a total function into `SafetyResult`. -/
def OODALoop.check_safety (g : OODALoop) (now : ℚ) (op : Option Bool)
    (dur : ℚ) : SafetyResult :=
  OODALoop.gate_phase g.afterAct now op dur

/-- `check_safety` applied to a whole sequence of inputs
`(now, op, dur)`, threading the guardian state. -/
def OODALoop.runSeq (g : OODALoop) (inputs : List (ℚ × Option Bool × ℚ)) :
    OODALoop :=
  inputs.foldl (fun s i => (s.check_safety i.1 i.2.1 i.2.2).st) g

/-- The status dictionary returned by `OODALoop.get_status`. -/
structure StatusReport where
  observations : Observations
  analysis : Analysis
  decision : Decision
  operational : Bool
deriving DecidableEq, Repr

/-- `OODALoop.get_status`: observe, orient, decide — but never act. Every
statement of the source method only reads guardian state, so the guardian
is returned unchanged alongside the report. -/
def OODALoop.get_status (g : OODALoop) : StatusReport × OODALoop :=
  let observations := g.observe
  let analysis := OODALoop.orient observations
  ({ observations := observations
     analysis := analysis
     decision := OODALoop.decide analysis
     operational := g.operational }, g)

/-- Breaker states reachable from `b0` by sequences of `CircuitBreaker.call`
with arbitrary instants, operation outcomes and durations. -/
inductive BreakerReachable (b0 : CircuitBreaker) : CircuitBreaker → Prop where
  | refl : BreakerReachable b0 b0
  | step (b : CircuitBreaker) (now : ℚ) (ok : Bool) (dur : ℚ) :
      BreakerReachable b0 b → BreakerReachable b0 (b.call now ok dur).breaker

/-- Guardian states reachable from `g0` by sequences of `check_safety`
calls with arbitrary instants, operations and durations. -/
inductive GuardianReachable (g0 : OODALoop) : OODALoop → Prop where
  | refl : GuardianReachable g0 g0
  | step (g : OODALoop) (now : ℚ) (op : Option Bool) (dur : ℚ) :
      GuardianReachable g0 g →
      GuardianReachable g0 (g.check_safety now op dur).st

/-- Along breaker-only transitions from a fresh breaker, the threshold and
timeout are constant and any non-CLOSED state carries a failure count at or
above the threshold. -/
lemma BreakerReachable.inv {t : ℕ} {rt : ℚ} {b : CircuitBreaker}
    (h : BreakerReachable (CircuitBreaker.init t rt) b) :
    b.failure_threshold = t ∧ b.recovery_timeout = rt ∧
      (b.state ≠ CircuitBreakerState.CLOSED → t ≤ b.failure_count) := by
  induction h with
  | refl => simp [CircuitBreaker.init]
  | step b now ok dur h ih =>
    obtain ⟨iht, ihrt, ihinv⟩ := ih
    obtain ⟨ft, rto, fc, lft, st⟩ := b
    simp only at iht ihrt ihinv
    subst iht ihrt
    cases st <;> cases ok <;> cases lft <;>
      simp +decide [CircuitBreaker.call, CircuitBreaker.attempt,
        CircuitBreaker._on_success, CircuitBreaker._on_failure] <;>
      (try split_ifs) <;> (try simp_all +decide) <;> omega

/-- Claim C1, counterexample: the guardian invariant fails. From a fresh
guardian (rate 10, threshold 5, timeout 60), one admitted slow success
(11 s) followed by one more `check_safety` call reaches a state whose
breaker is OPEN with `failure_count = 0 < 5 = failure_threshold`: the Act
phase for TripCircuitBreaker forces the breaker OPEN without touching the
failure count. -/
theorem C1_counterexample :
    GuardianReachable (OODALoop.init 10 5 60 0)
      ((((OODALoop.init 10 5 60 0).check_safety 0 (some true) 11).st).check_safety
        11 none 0).st ∧
    ((((OODALoop.init 10 5 60 0).check_safety 0 (some true) 11).st).check_safety
        11 none 0).st.circuit_breaker.state = CircuitBreakerState.OPEN ∧
    ((((OODALoop.init 10 5 60 0).check_safety 0 (some true) 11).st).check_safety
        11 none 0).st.circuit_breaker.failure_count <
      ((((OODALoop.init 10 5 60 0).check_safety 0 (some true) 11).st).check_safety
        11 none 0).st.circuit_breaker.failure_threshold := by
  have h1 : ((OODALoop.init 10 5 60 0).check_safety 0 (some true) 11).st =
      ⟨⟨10, 20, 19, 0⟩, ⟨5, 60, 0, none, CircuitBreakerState.CLOSED⟩,
        ⟨100, [(11, false)]⟩, true⟩ := by
    norm_num +decide [OODALoop.check_safety, OODALoop.afterAct,
      OODALoop.gate_phase, OODALoop.init, OODALoop.observe, OODALoop.orient,
      OODALoop.decide, OODALoop.act, RateLimiter.allow_request,
      RateLimiter.init, CircuitBreaker.call, CircuitBreaker.init,
      CircuitBreaker.attempt, CircuitBreaker._on_success,
      CircuitBreaker._on_failure, HealthMonitor.get_health_metrics,
      HealthMonitor.record_request, HealthMonitor.init]
  have h2 : ((⟨⟨10, 20, 19, 0⟩, ⟨5, 60, 0, none, CircuitBreakerState.CLOSED⟩,
        ⟨100, [(11, false)]⟩, true⟩ : OODALoop).check_safety 11 none 0).st =
      ⟨⟨10, 20, 19, 11⟩, ⟨5, 60, 0, none, CircuitBreakerState.OPEN⟩,
        ⟨100, [(11, false)]⟩, false⟩ := by
    norm_num +decide [OODALoop.check_safety, OODALoop.afterAct,
      OODALoop.gate_phase, OODALoop.observe, OODALoop.orient,
      OODALoop.decide, OODALoop.act, RateLimiter.allow_request,
      CircuitBreaker.call, CircuitBreaker.attempt,
      CircuitBreaker._on_success, CircuitBreaker._on_failure,
      HealthMonitor.get_health_metrics, HealthMonitor.record_request]
  refine ⟨GuardianReachable.step _ 11 none 0
      (GuardianReachable.step _ 0 (some true) 11 GuardianReachable.refl),
    ?_, ?_⟩ <;> rw [h1, h2] <;> decide

/-- Claim C1 (amended): the breaker's own transitions do preserve the
invariant — any breaker state reachable from a fresh breaker through
`CircuitBreaker.call` alone is OPEN only if
`failure_threshold ≤ failure_count`. (The guardian's forced trip violates
it, as the counterexample shows.) -/
theorem C1_breaker_open_needs_threshold (t : ℕ) (rt : ℚ) (b : CircuitBreaker)
    (h : BreakerReachable (CircuitBreaker.init t rt) b)
    (hS : b.state = CircuitBreakerState.OPEN) : t ≤ b.failure_count :=
  h.inv.2.2 (by simp [hS])

/-- Witness for C1: one failing call on a fresh breaker with threshold 1
reaches OPEN, and the theorem yields `1 ≤ failure_count` there. -/
theorem C1_witness :
    ((CircuitBreaker.init 1 60).call 0 false 0).breaker.state =
      CircuitBreakerState.OPEN ∧
    1 ≤ ((CircuitBreaker.init 1 60).call 0 false 0).breaker.failure_count :=
  ⟨by decide,
    C1_breaker_open_needs_threshold 1 60 _
      (BreakerReachable.step _ 0 false 0 BreakerReachable.refl) (by decide)⟩

/-- Claim C3, counterexample: at the exact boundary
`now - last_failure_time = recovery_timeout` the source rejects the call
(`>` is strict), whereas the claim requires a transition to HALF_OPEN and
an attempt. Breaker: threshold 1, timeout 1; failure at 0 opens it; the
call at instant 1 satisfies `now - last_failure_time ≥ recovery_timeout`
yet is rejected, the operation is not invoked, and the state stays OPEN. -/
theorem C3_counterexample :
    ((CircuitBreaker.init 1 1).call 0 false 0).breaker.state =
      CircuitBreakerState.OPEN ∧
    ((CircuitBreaker.init 1 1).call 0 false 0).breaker.last_failure_time =
      some 0 ∧
    ((CircuitBreaker.init 1 1).call 0 false 0).breaker.recovery_timeout ≤
      (1 : ℚ) - 0 ∧
    (((CircuitBreaker.init 1 1).call 0 false 0).breaker.call 1 true 0).result =
      CallResult.RejectedOpen ∧
    (((CircuitBreaker.init 1 1).call 0 false 0).breaker.call 1 true 0).invoked =
      false ∧
    (((CircuitBreaker.init 1 1).call 0 false 0).breaker.call 1 true
        0).breaker.state = CircuitBreakerState.OPEN := by
  norm_num +decide [CircuitBreaker.call, CircuitBreaker.init,
    CircuitBreaker.attempt, CircuitBreaker._on_failure]

/-- Claim C3 (amended, strict inequality): for a call made while the state
is OPEN with `last_failure_time = some tf`: if
`now - tf > recovery_timeout` (strictly) the operation is attempted (via
HALF_OPEN), and a success closes the breaker with `failure_count = 0`; if
`now - tf ≤ recovery_timeout` the call is rejected immediately, the
operation is not invoked, and the breaker is unchanged. -/
theorem C3_strict_recovery (cb : CircuitBreaker) (now tf dur : ℚ) (ok : Bool)
    (hS : cb.state = CircuitBreakerState.OPEN)
    (hL : cb.last_failure_time = some tf) :
    (cb.recovery_timeout < now - tf →
      (cb.call now ok dur).invoked = true ∧
      (ok = true →
        (cb.call now ok dur).result = CallResult.Success ∧
        (cb.call now ok dur).breaker.state = CircuitBreakerState.CLOSED ∧
        (cb.call now ok dur).breaker.failure_count = 0)) ∧
    (now - tf ≤ cb.recovery_timeout →
      (cb.call now ok dur).result = CallResult.RejectedOpen ∧
      (cb.call now ok dur).invoked = false ∧
      (cb.call now ok dur).breaker = cb) := by
  obtain ⟨ft, rto, fc, lft, st⟩ := cb
  simp only at hS hL
  subst hS hL
  constructor
  · intro ht
    simp only [CircuitBreaker.call, if_pos ht]
    cases ok with
    | true =>
      simp [CircuitBreaker.attempt, CircuitBreaker._on_success]
    | false =>
      simp [CircuitBreaker.attempt, CircuitBreaker._on_failure]
  · intro ht
    simp only [CircuitBreaker.call, if_neg (not_lt.mpr ht)]
    exact ⟨rfl, rfl, rfl⟩

/-- Witness for C3 (amended): breaker OPEN with threshold 1, timeout 1,
failure stamped at 0; a successful call at instant 3 (past the strict
timeout) is attempted and closes the breaker with zero failures; a call at
instant 1 (at the boundary) is rejected unchanged. -/
theorem C3_witness :
    (((CircuitBreaker.init 1 1).call 0 false 0).breaker.recovery_timeout <
        (3 : ℚ) - 0 →
      ((((CircuitBreaker.init 1 1).call 0 false 0).breaker.call 3 true
          0).invoked = true ∧
        (true = true →
          ((((CircuitBreaker.init 1 1).call 0 false 0).breaker.call 3 true
              0).result = CallResult.Success ∧
            ((((CircuitBreaker.init 1 1).call 0 false 0).breaker.call 3 true
                0).breaker.state = CircuitBreakerState.CLOSED ∧
              (((CircuitBreaker.init 1 1).call 0 false 0).breaker.call 3 true
                  0).breaker.failure_count = 0))))) ∧
    ((3 : ℚ) - 0 ≤
        ((CircuitBreaker.init 1 1).call 0 false 0).breaker.recovery_timeout →
      ((((CircuitBreaker.init 1 1).call 0 false 0).breaker.call 3 true
          0).result = CallResult.RejectedOpen ∧
        ((((CircuitBreaker.init 1 1).call 0 false 0).breaker.call 3 true
            0).invoked = false ∧
          (((CircuitBreaker.init 1 1).call 0 false 0).breaker.call 3 true
              0).breaker = ((CircuitBreaker.init 1 1).call 0 false 0).breaker))) :=
  C3_strict_recovery ((CircuitBreaker.init 1 1).call 0 false 0).breaker 3 0 0
    true (by decide)
    (by norm_num +decide [CircuitBreaker.call, CircuitBreaker.init,
      CircuitBreaker.attempt, CircuitBreaker._on_failure])

/-- Claim C4: a call entered while the breaker is OPEN past its recovery
timeout (so the state moves to HALF_OPEN) whose single trial operation
fails sends the breaker back to OPEN — the failure count was already at or
above the threshold in any breaker-reachable OPEN state — and stamps
`last_failure_time` with the instant of this new failure, restarting the
recovery timer from it. -/
theorem C4_half_open_failure_reopens (t : ℕ) (rt : ℚ) (b : CircuitBreaker)
    (now tf dur : ℚ)
    (h : BreakerReachable (CircuitBreaker.init t rt) b)
    (hS : b.state = CircuitBreakerState.OPEN)
    (hL : b.last_failure_time = some tf)
    (ht : b.recovery_timeout < now - tf) :
    (b.call now false dur).result = CallResult.Failed ∧
    (b.call now false dur).invoked = true ∧
    (b.call now false dur).breaker.state = CircuitBreakerState.OPEN ∧
    (b.call now false dur).breaker.last_failure_time = some (now + dur) ∧
    (b.call now false dur).breaker.failure_count = b.failure_count + 1 := by
  have hfc : t ≤ b.failure_count := h.inv.2.2 (by simp [hS])
  have hft : b.failure_threshold = t := h.inv.1
  obtain ⟨ft, rto, fc, lft, st⟩ := b
  simp only at hS hL ht hfc hft
  subst hS hL hft
  have hth : ft ≤ fc + 1 := by omega
  simp [CircuitBreaker.call, CircuitBreaker.attempt,
    CircuitBreaker._on_failure, if_pos ht, hth]

/-- Witness for C4: breaker with threshold 1 and timeout 1, opened by a
failure at instant 0; a failing trial at instant 5 (duration 2) re-opens it
and stamps the failure time 7. -/
theorem C4_witness :
    ((CircuitBreaker.init 1 1).call 0 false 0).breaker.last_failure_time =
      some 0 ∧
    ((CircuitBreaker.init 1 1).call 0 false 0).breaker.recovery_timeout <
      (5 : ℚ) - 0 ∧
    ((((CircuitBreaker.init 1 1).call 0 false 0).breaker.call 5 false
        2).result = CallResult.Failed ∧
      (((CircuitBreaker.init 1 1).call 0 false 0).breaker.call 5 false
          2).invoked = true ∧
      (((CircuitBreaker.init 1 1).call 0 false 0).breaker.call 5 false
          2).breaker.state = CircuitBreakerState.OPEN ∧
      (((CircuitBreaker.init 1 1).call 0 false 0).breaker.call 5 false
          2).breaker.last_failure_time = some ((5 : ℚ) + 2) ∧
      (((CircuitBreaker.init 1 1).call 0 false 0).breaker.call 5 false
          2).breaker.failure_count =
        ((CircuitBreaker.init 1 1).call 0 false 0).breaker.failure_count + 1) :=
  ⟨by norm_num +decide [CircuitBreaker.call, CircuitBreaker.init,
      CircuitBreaker.attempt, CircuitBreaker._on_failure],
    by norm_num +decide [CircuitBreaker.call, CircuitBreaker.init,
      CircuitBreaker.attempt, CircuitBreaker._on_failure],
    C4_half_open_failure_reopens 1 1 _ 5 0 2
      (BreakerReachable.step _ 0 false 0 BreakerReachable.refl) (by decide)
      (by norm_num +decide [CircuitBreaker.call, CircuitBreaker.init,
        CircuitBreaker.attempt, CircuitBreaker._on_failure])
      (by norm_num +decide [CircuitBreaker.call, CircuitBreaker.init,
        CircuitBreaker.attempt, CircuitBreaker._on_failure])⟩

/-- Claim C5: on a fresh breaker with threshold 5 (timeout 60), five
consecutive failing operations at instant 0 leave the breaker OPEN with
failure count 5, and a sixth call issued immediately (well before the
recovery timeout) is rejected with the circuit-open error, the wrapped
operation is not invoked, and the breaker is unchanged. -/
theorem C5_five_failures_trip_then_reject :
    ((List.range 5).foldl (fun b _ => (b.call 0 false 0).breaker)
        (CircuitBreaker.init 5 60)).state = CircuitBreakerState.OPEN ∧
    ((List.range 5).foldl (fun b _ => (b.call 0 false 0).breaker)
        (CircuitBreaker.init 5 60)).failure_count = 5 ∧
    (((List.range 5).foldl (fun b _ => (b.call 0 false 0).breaker)
        (CircuitBreaker.init 5 60)).call 0 true 0).result =
      CallResult.RejectedOpen ∧
    (((List.range 5).foldl (fun b _ => (b.call 0 false 0).breaker)
        (CircuitBreaker.init 5 60)).call 0 true 0).invoked = false ∧
    (((List.range 5).foldl (fun b _ => (b.call 0 false 0).breaker)
        (CircuitBreaker.init 5 60)).call 0 true 0).breaker =
      (List.range 5).foldl (fun b _ => (b.call 0 false 0).breaker)
        (CircuitBreaker.init 5 60) := by
  norm_num +decide [List.range_succ, CircuitBreaker.call, CircuitBreaker.init,
    CircuitBreaker.attempt, CircuitBreaker._on_failure]

/-- Claim C6: the token-bucket contract. First, the concrete saturation
scenario: a fresh limiter with rate 10 and burst 20 answers 25 immediate
calls (no elapsed time) with exactly 20 `true` then 5 `false`, in call
order. Second, in general a call returns `true` exactly when the refilled
token count is at least 1, and the stored tokens become `refilled - 1` on
success and `refilled` on refusal. -/
theorem C6_token_bucket :
    (((List.range 25).foldl
        (fun acc _ =>
          ((acc.1 ++ [(acc.2.allow_request 0).1], (acc.2.allow_request 0).2) :
            List Bool × RateLimiter))
        (([] : List Bool), RateLimiter.init 10 20 0)).1 =
      List.replicate 20 true ++ List.replicate 5 false) ∧
    ∀ (rl : RateLimiter) (now : ℚ),
      (rl.allow_request now).1 = decide (1 ≤ rl.refilled now) ∧
      (rl.allow_request now).2.tokens =
        (if 1 ≤ rl.refilled now then rl.refilled now - 1
         else rl.refilled now) := by
  constructor
  · norm_num +decide [List.range_succ, RateLimiter.allow_request,
      RateLimiter.init]
  · intro rl now
    unfold RateLimiter.allow_request RateLimiter.refilled
    split_ifs with h <;> simp [h]

/-- `act` never touches the rate limiter. -/
lemma OODALoop.act_rate_limiter (g : OODALoop) (d : Decision) :
    (g.act d).rate_limiter = g.rate_limiter := by
  unfold OODALoop.act; split_ifs <;> rfl

/-- `act` never touches the health monitor. -/
lemma OODALoop.act_health_monitor (g : OODALoop) (d : Decision) :
    (g.act d).health_monitor = g.health_monitor := by
  unfold OODALoop.act; split_ifs <;> rfl

/-- The OODA prefix never touches the rate limiter. -/
lemma OODALoop.afterAct_rate_limiter (g : OODALoop) :
    g.afterAct.rate_limiter = g.rate_limiter :=
  OODALoop.act_rate_limiter g _

/-- The OODA prefix never touches the health monitor. -/
lemma OODALoop.afterAct_health_monitor (g : OODALoop) :
    g.afterAct.health_monitor = g.health_monitor :=
  OODALoop.act_health_monitor g _

/-- When the breaker is OPEN at observation time the decision is
MAINTAIN_CIRCUIT_OPEN and the OODA prefix changes nothing. -/
lemma OODALoop.afterAct_of_open (g : OODALoop)
    (hO : g.circuit_breaker.state = CircuitBreakerState.OPEN) :
    g.afterAct = g := by
  unfold OODALoop.afterAct OODALoop.observe OODALoop.orient OODALoop.decide
    OODALoop.act
  simp +decide [hO]

/-- Every branch of the gate phase stores the post-`allow_request`
limiter. -/
lemma OODALoop.gate_phase_rate_limiter (g : OODALoop) (now : ℚ)
    (op : Option Bool) (dur : ℚ) :
    (g.gate_phase now op dur).st.rate_limiter =
      (g.rate_limiter.allow_request now).2 := by
  cases op <;> simp only [OODALoop.gate_phase] <;> split_ifs <;> rfl

/-- `check_safety` stores the post-`allow_request` limiter, whatever else
it decides. -/
lemma OODALoop.check_safety_rate_limiter (g : OODALoop) (now : ℚ)
    (op : Option Bool) (dur : ℚ) :
    (g.check_safety now op dur).st.rate_limiter =
      (g.rate_limiter.allow_request now).2 := by
  unfold OODALoop.check_safety
  rw [OODALoop.gate_phase_rate_limiter, OODALoop.afterAct_rate_limiter]

/-- A `check_safety` call that finds the breaker OPEN: the OODA prefix is
the identity, the limiter is consulted (and mutated), and then the
open-breaker gate (or already the rate gate) rejects: the result is
`false`, `circuit_breaker.call` is never reached, and only the rate
limiter changes. -/
lemma OODALoop.check_safety_of_open (g : OODALoop) (now : ℚ)
    (op : Option Bool) (dur : ℚ)
    (hO : g.circuit_breaker.state = CircuitBreakerState.OPEN) :
    g.check_safety now op dur =
      { ok := false, breaker_called := false
        st := { g with rate_limiter := (g.rate_limiter.allow_request now).2 } } := by
  unfold OODALoop.check_safety
  rw [OODALoop.afterAct_of_open g hO]
  simp only [OODALoop.gate_phase]
  split_ifs with h1 h2 <;> first | rfl | exact absurd hO h2

/-- Once the breaker is OPEN, any sequence of `check_safety` calls leaves
the breaker field (state, counters, timestamps) exactly as it is. -/
lemma OODALoop.runSeq_open (g : OODALoop)
    (inputs : List (ℚ × Option Bool × ℚ))
    (hO : g.circuit_breaker.state = CircuitBreakerState.OPEN) :
    (OODALoop.runSeq g inputs).circuit_breaker = g.circuit_breaker := by
  induction inputs generalizing g with
  | nil => rfl
  | cons i rest ih =>
    unfold OODALoop.runSeq at ih ⊢
    rw [List.foldl_cons, OODALoop.check_safety_of_open g i.1 i.2.1 i.2.2 hO]
    exact ih _ hO

/-- The gate phase run on a guardian whose breaker is OPEN rejects before
reaching `circuit_breaker.call`, whichever gate fires first. -/
lemma OODALoop.gate_phase_of_open (g : OODALoop) (now : ℚ)
    (op : Option Bool) (dur : ℚ)
    (hO : g.circuit_breaker.state = CircuitBreakerState.OPEN) :
    (g.gate_phase now op dur).ok = false ∧
    (g.gate_phase now op dur).breaker_called = false := by
  simp only [OODALoop.gate_phase]
  split_ifs with h1 h2 <;> first | exact ⟨rfl, rfl⟩ | exact absurd hO h2

/-- Claim C2: whenever the breaker is OPEN at the gate check (the post-Act
state), `check_safety` returns `false` without ever reaching
`circuit_breaker.call`; when the breaker is OPEN already on entry the
whole call leaves the breaker untouched, and consequently — since the
OPEN-to-HALF_OPEN timeout transition lives only inside
`CircuitBreaker.call` — no sequence of `check_safety` calls ever moves the
breaker out of OPEN, no matter how much time elapses between them. -/
theorem C2_open_breaker_never_recovers (g : OODALoop) (now : ℚ)
    (op : Option Bool) (dur : ℚ) (inputs : List (ℚ × Option Bool × ℚ))
    (hO : g.circuit_breaker.state = CircuitBreakerState.OPEN) :
    (g.check_safety now op dur).ok = false ∧
    (g.check_safety now op dur).breaker_called = false ∧
    (g.check_safety now op dur).st.circuit_breaker = g.circuit_breaker ∧
    (OODALoop.runSeq g inputs).circuit_breaker = g.circuit_breaker ∧
    ∀ g2 : OODALoop,
      g2.afterAct.circuit_breaker.state = CircuitBreakerState.OPEN →
      (g2.check_safety now op dur).ok = false ∧
      (g2.check_safety now op dur).breaker_called = false := by
  rw [OODALoop.check_safety_of_open g now op dur hO]
  exact ⟨rfl, rfl, rfl, OODALoop.runSeq_open g inputs hO,
    fun g2 h2 => OODALoop.gate_phase_of_open g2.afterAct now op dur h2⟩

/-- Witness for C2: a guardian whose breaker is OPEN (threshold 5, count 5,
failure at 0): a call at instant 0 with a succeeding operation returns
`false` without touching the breaker, and a later call at instant 1000
(far past the 60 s recovery timeout) still leaves the breaker OPEN. -/
theorem C2_witness :
    ((⟨⟨10, 20, 20, 0⟩, ⟨5, 60, 5, some 0, CircuitBreakerState.OPEN⟩,
        ⟨100, []⟩, true⟩ : OODALoop).check_safety 0 (some true) 0).ok = false ∧
    ((⟨⟨10, 20, 20, 0⟩, ⟨5, 60, 5, some 0, CircuitBreakerState.OPEN⟩,
        ⟨100, []⟩, true⟩ : OODALoop).check_safety 0 (some true)
        0).breaker_called = false ∧
    ((⟨⟨10, 20, 20, 0⟩, ⟨5, 60, 5, some 0, CircuitBreakerState.OPEN⟩,
        ⟨100, []⟩, true⟩ : OODALoop).check_safety 0 (some true)
        0).st.circuit_breaker =
      (⟨⟨10, 20, 20, 0⟩, ⟨5, 60, 5, some 0, CircuitBreakerState.OPEN⟩,
        ⟨100, []⟩, true⟩ : OODALoop).circuit_breaker ∧
    (OODALoop.runSeq
        (⟨⟨10, 20, 20, 0⟩, ⟨5, 60, 5, some 0, CircuitBreakerState.OPEN⟩,
          ⟨100, []⟩, true⟩ : OODALoop)
        [(1000, some true, 0)]).circuit_breaker =
      (⟨⟨10, 20, 20, 0⟩, ⟨5, 60, 5, some 0, CircuitBreakerState.OPEN⟩,
        ⟨100, []⟩, true⟩ : OODALoop).circuit_breaker :=
  have h := C2_open_breaker_never_recovers
    (⟨⟨10, 20, 20, 0⟩, ⟨5, 60, 5, some 0, CircuitBreakerState.OPEN⟩,
      ⟨100, []⟩, true⟩ : OODALoop) 0 (some true) 0 [(1000, some true, 0)]
    (by decide)
  ⟨h.1, h.2.1, h.2.2.1, h.2.2.2.1⟩

/-- Claim C7: `check_safety` consults the rate limiter before the
open-breaker and degraded-mode gates: whenever at least one token is
available after refill, the call consumes exactly one token — the stored
limiter holds `refilled - 1` — even when the call then returns `false`
because the breaker is OPEN. -/
theorem C7_limiter_consumed_even_on_rejection (g : OODALoop) (now : ℚ)
    (op : Option Bool) (dur : ℚ)
    (h : 1 ≤ g.rate_limiter.refilled now) :
    (g.check_safety now op dur).st.rate_limiter.tokens =
      g.rate_limiter.refilled now - 1 ∧
    (g.circuit_breaker.state = CircuitBreakerState.OPEN →
      (g.check_safety now op dur).ok = false) := by
  constructor
  · rw [OODALoop.check_safety_rate_limiter]
    unfold RateLimiter.refilled at h
    simp only [RateLimiter.allow_request]
    rw [if_pos h]
    rfl
  · intro hO
    rw [OODALoop.check_safety_of_open g now op dur hO]

/-- Witness for C7: the OPEN-breaker guardian with 20 tokens at instant 0
has 20 refilled tokens; the rejected call still consumes one, leaving 19,
and returns `false`. -/
theorem C7_witness :
    (1 ≤ (⟨⟨10, 20, 20, 0⟩, ⟨5, 60, 5, some 0, CircuitBreakerState.OPEN⟩,
        ⟨100, []⟩, true⟩ : OODALoop).rate_limiter.refilled 0) ∧
    ((⟨⟨10, 20, 20, 0⟩, ⟨5, 60, 5, some 0, CircuitBreakerState.OPEN⟩,
        ⟨100, []⟩, true⟩ : OODALoop).check_safety 0 none
        0).st.rate_limiter.tokens =
      (⟨⟨10, 20, 20, 0⟩, ⟨5, 60, 5, some 0, CircuitBreakerState.OPEN⟩,
        ⟨100, []⟩, true⟩ : OODALoop).rate_limiter.refilled 0 - 1 ∧
    ((⟨⟨10, 20, 20, 0⟩, ⟨5, 60, 5, some 0, CircuitBreakerState.OPEN⟩,
        ⟨100, []⟩, true⟩ : OODALoop).circuit_breaker.state =
        CircuitBreakerState.OPEN →
      ((⟨⟨10, 20, 20, 0⟩, ⟨5, 60, 5, some 0, CircuitBreakerState.OPEN⟩,
          ⟨100, []⟩, true⟩ : OODALoop).check_safety 0 none 0).ok = false) :=
  ⟨by norm_num [RateLimiter.refilled],
    C7_limiter_consumed_even_on_rejection _ 0 none 0
      (by norm_num [RateLimiter.refilled])⟩

/-- Folding `record_request` over a list of samples keeps exactly the
`window_size` most recent of old-plus-new samples (expressed as a `drop`
of the concatenation), and never changes the window size. -/
lemma HealthMonitor.foldl_record_samples (l : List (ℚ × Bool))
    (hm : HealthMonitor) (hlen : hm.samples.length ≤ hm.window_size) :
    (l.foldl (fun h s => h.record_request s.1 s.2) hm).samples =
      (hm.samples ++ l).drop ((hm.samples ++ l).length - hm.window_size) ∧
    (l.foldl (fun h s => h.record_request s.1 s.2) hm).window_size =
      hm.window_size := by
  induction l generalizing hm with
  | nil =>
    have h0 : hm.samples.length - hm.window_size = 0 := by omega
    simp [h0]
  | cons x rest ih =>
    rw [List.foldl_cons]
    have hlen2 : (hm.record_request x.1 x.2).samples.length ≤
        (hm.record_request x.1 x.2).window_size := by
      simp [HealthMonitor.record_request]
      omega
    obtain ⟨ih1, ih2⟩ := ih (hm.record_request x.1 x.2) hlen2
    have hw : (hm.record_request x.1 x.2).window_size = hm.window_size := rfl
    have hs : (hm.record_request x.1 x.2).samples =
        (hm.samples ++ [x]).drop (hm.samples.length + 1 - hm.window_size) := by
      simp [HealthMonitor.record_request]
    refine ⟨?_, by rw [ih2, hw]⟩
    rw [ih1, hw, hs]
    rw [← List.drop_append_of_le_length (by simp)]
    rw [List.drop_drop]
    have hxr : (hm.samples ++ [x]) ++ rest = hm.samples ++ x :: rest := by
      simp
    rw [hxr]
    congr 1
    simp only [List.length_drop, List.length_append, List.length_cons,
      List.length_singleton]
    omega

/-- Claim C8: recording any 150 samples into a fresh monitor with window
size 100 leaves exactly the 100 most recent samples (the first 50 are
evicted), and the reported error rate is the number of error samples among
those 100 divided by 100 (`total_requests`, the sum of the all-ones deque,
is 100). -/
theorem C8_window_keeps_last_hundred (l : List (ℚ × Bool))
    (hlen : l.length = 150) :
    (l.foldl (fun h s => h.record_request s.1 s.2)
        (HealthMonitor.init 100)).samples = l.drop 50 ∧
    (l.foldl (fun h s => h.record_request s.1 s.2)
        (HealthMonitor.init 100)).get_health_metrics.error_rate =
      (((l.drop 50).filter (fun s => s.2)).length : ℚ) / 100 ∧
    (l.foldl (fun h s => h.record_request s.1 s.2)
        (HealthMonitor.init 100)).get_health_metrics.total_requests = 100 := by
  obtain ⟨h1, h2⟩ :=
    HealthMonitor.foldl_record_samples l (HealthMonitor.init 100)
      (by simp [HealthMonitor.init])
  have hs : (l.foldl (fun h s => h.record_request s.1 s.2)
      (HealthMonitor.init 100)).samples = l.drop 50 := by
    rw [h1]
    simp [HealthMonitor.init, hlen]
  have hlen50 : (l.drop 50).length = 100 := by simp [hlen]
  have hne : (l.drop 50).isEmpty = false := by
    rw [List.isEmpty_eq_false]
    intro heq
    rw [heq] at hlen50
    simp at hlen50
  refine ⟨hs, ?_, ?_⟩ <;>
    simp only [HealthMonitor.get_health_metrics, hs, hne, Bool.false_eq_true,
      if_false, hlen50] <;>
    norm_num

/-- Witness for C8: 150 all-success samples with response time 0; the
window keeps the last 100 and reports error rate 0/100 over 100
requests. -/
theorem C8_witness :
    (List.replicate 150 ((0 : ℚ), false)).length = 150 ∧
    ((List.replicate 150 ((0 : ℚ), false)).foldl
        (fun h s => h.record_request s.1 s.2)
        (HealthMonitor.init 100)).samples =
      (List.replicate 150 ((0 : ℚ), false)).drop 50 ∧
    ((List.replicate 150 ((0 : ℚ), false)).foldl
        (fun h s => h.record_request s.1 s.2)
        (HealthMonitor.init 100)).get_health_metrics.error_rate =
      ((((List.replicate 150 ((0 : ℚ), false)).drop 50).filter
          (fun s => s.2)).length : ℚ) / 100 ∧
    ((List.replicate 150 ((0 : ℚ), false)).foldl
        (fun h s => h.record_request s.1 s.2)
        (HealthMonitor.init 100)).get_health_metrics.total_requests = 100 :=
  ⟨by simp, C8_window_keeps_last_hundred _ (by simp)⟩

/-- The boolean verdict of `allow_request` is exactly the refill test. -/
lemma RateLimiter.allow_request_fst (rl : RateLimiter) (now : ℚ) :
    (rl.allow_request now).1 = decide (1 ≤ rl.refilled now) := by
  simp only [RateLimiter.allow_request, RateLimiter.refilled]
  split_ifs with h <;> simp [h]

/-- Branch behaviour of the gate phase: a rate-limit refusal, an
open-breaker refusal and a degraded-mode refusal each return `false`; an
admitted failing operation returns `false` and records an error sample. -/
lemma OODALoop.gate_phase_spec (g : OODALoop) (now : ℚ) (op : Option Bool)
    (dur : ℚ) :
    (g.rate_limiter.refilled now < 1 →
      (g.gate_phase now op dur).ok = false) ∧
    (1 ≤ g.rate_limiter.refilled now →
      g.circuit_breaker.state = CircuitBreakerState.OPEN →
      (g.gate_phase now op dur).ok = false) ∧
    (1 ≤ g.rate_limiter.refilled now →
      g.circuit_breaker.state ≠ CircuitBreakerState.OPEN →
      g.operational = false →
      (g.gate_phase now op dur).ok = false) ∧
    (1 ≤ g.rate_limiter.refilled now →
      g.circuit_breaker.state ≠ CircuitBreakerState.OPEN →
      g.operational = true →
      op = some false →
      (g.gate_phase now op dur).ok = false ∧
      (g.gate_phase now op dur).st.health_monitor =
        g.health_monitor.record_request dur true) := by
  refine ⟨?_, ?_, ?_, ?_⟩
  · intro h
    have hf : (g.rate_limiter.allow_request now).1 = false := by
      rw [RateLimiter.allow_request_fst]
      simpa using not_le.mpr h
    simp [OODALoop.gate_phase, hf]
  · intro h1 h2
    have ht : (g.rate_limiter.allow_request now).1 = true := by
      rw [RateLimiter.allow_request_fst]
      simpa using h1
    simp [OODALoop.gate_phase, ht, h2]
  · intro h1 h2 h3
    have ht : (g.rate_limiter.allow_request now).1 = true := by
      rw [RateLimiter.allow_request_fst]
      simpa using h1
    simp [OODALoop.gate_phase, ht, h2, h3]
  · intro h1 h2 h3 h4
    subst h4
    have ht : (g.rate_limiter.allow_request now).1 = true := by
      rw [RateLimiter.allow_request_fst]
      simpa using h1
    simp +decide [OODALoop.gate_phase, ht, h2, h3, CircuitBreaker.call,
      CircuitBreaker.attempt, CircuitBreaker._on_failure]

/-- Claim C9: `check_safety` always returns a boolean — the embedding is a
total function, mirroring that every raise inside the protected block is
caught by the method's `try/except Exception` and nothing outside it can
raise. Each rejection cause yields the value `false` rather than an
exception: rate-limit refusal, open-breaker refusal (post-Act state),
degraded-mode refusal; and an admitted operation that raises is absorbed,
recorded as an error sample in the health monitor, and reported as
`false`. -/
theorem C9_check_safety_boolean_gate (g : OODALoop) (now : ℚ)
    (op : Option Bool) (dur : ℚ) :
    (g.rate_limiter.refilled now < 1 →
      (g.check_safety now op dur).ok = false) ∧
    (1 ≤ g.rate_limiter.refilled now →
      g.afterAct.circuit_breaker.state = CircuitBreakerState.OPEN →
      (g.check_safety now op dur).ok = false) ∧
    (1 ≤ g.rate_limiter.refilled now →
      g.afterAct.circuit_breaker.state ≠ CircuitBreakerState.OPEN →
      g.afterAct.operational = false →
      (g.check_safety now op dur).ok = false) ∧
    (1 ≤ g.rate_limiter.refilled now →
      g.afterAct.circuit_breaker.state ≠ CircuitBreakerState.OPEN →
      g.afterAct.operational = true →
      op = some false →
      (g.check_safety now op dur).ok = false ∧
      (g.check_safety now op dur).st.health_monitor =
        g.health_monitor.record_request dur true) := by
  have hs := OODALoop.gate_phase_spec g.afterAct now op dur
  rw [OODALoop.afterAct_rate_limiter, OODALoop.afterAct_health_monitor] at hs
  exact hs

/-- Witness for C9: a fresh guardian admits a failing operation at instant
0: the result is `false` and the failure is recorded as an error sample. -/
theorem C9_witness :
    (1 ≤ (⟨⟨10, 20, 20, 0⟩, ⟨5, 60, 0, none, CircuitBreakerState.CLOSED⟩,
        ⟨100, []⟩, true⟩ : OODALoop).rate_limiter.refilled 0) ∧
    (⟨⟨10, 20, 20, 0⟩, ⟨5, 60, 0, none, CircuitBreakerState.CLOSED⟩,
        ⟨100, []⟩, true⟩ : OODALoop).afterAct.circuit_breaker.state ≠
      CircuitBreakerState.OPEN ∧
    (⟨⟨10, 20, 20, 0⟩, ⟨5, 60, 0, none, CircuitBreakerState.CLOSED⟩,
        ⟨100, []⟩, true⟩ : OODALoop).afterAct.operational = true ∧
    ((⟨⟨10, 20, 20, 0⟩, ⟨5, 60, 0, none, CircuitBreakerState.CLOSED⟩,
        ⟨100, []⟩, true⟩ : OODALoop).check_safety 0 (some false) 0).ok =
      false ∧
    ((⟨⟨10, 20, 20, 0⟩, ⟨5, 60, 0, none, CircuitBreakerState.CLOSED⟩,
        ⟨100, []⟩, true⟩ : OODALoop).check_safety 0 (some false)
        0).st.health_monitor =
      (⟨⟨10, 20, 20, 0⟩, ⟨5, 60, 0, none, CircuitBreakerState.CLOSED⟩,
        ⟨100, []⟩, true⟩ : OODALoop).health_monitor.record_request 0 true :=
  have hA : (⟨⟨10, 20, 20, 0⟩,
      ⟨5, 60, 0, none, CircuitBreakerState.CLOSED⟩,
      ⟨100, []⟩, true⟩ : OODALoop).afterAct =
      ⟨⟨10, 20, 20, 0⟩, ⟨5, 60, 0, none, CircuitBreakerState.CLOSED⟩,
        ⟨100, []⟩, true⟩ := by
    norm_num +decide [OODALoop.afterAct, OODALoop.observe, OODALoop.orient,
      OODALoop.decide, OODALoop.act, HealthMonitor.get_health_metrics]
  have h1 : (1 : ℚ) ≤ (⟨⟨10, 20, 20, 0⟩,
      ⟨5, 60, 0, none, CircuitBreakerState.CLOSED⟩,
      ⟨100, []⟩, true⟩ : OODALoop).rate_limiter.refilled 0 := by
    norm_num [RateLimiter.refilled]
  have h2 : (⟨⟨10, 20, 20, 0⟩,
      ⟨5, 60, 0, none, CircuitBreakerState.CLOSED⟩,
      ⟨100, []⟩, true⟩ : OODALoop).afterAct.circuit_breaker.state ≠
      CircuitBreakerState.OPEN := by rw [hA]; decide
  have h3 : (⟨⟨10, 20, 20, 0⟩,
      ⟨5, 60, 0, none, CircuitBreakerState.CLOSED⟩,
      ⟨100, []⟩, true⟩ : OODALoop).afterAct.operational = true := by
    rw [hA]
  ⟨h1, h2, h3,
    (C9_check_safety_boolean_gate _ 0 (some false) 0).2.2.2 h1 h2 h3 rfl⟩

/-- Claim C10: `get_status` returns the observe/orient/decide snapshot and
leaves the guardian unchanged — every statement of the method is a read
and `act` is never called. The second half exhibits a guardian whose
snapshot decision is TRIP_CIRCUIT_BREAKER (so a `check_safety` cycle would
force the breaker OPEN), yet `get_status` reports that decision while the
breaker stays CLOSED and the state is returned identically. -/
theorem C10_get_status_pure :
    (∀ g : OODALoop,
      (g.get_status).2 = g ∧
      (g.get_status).1 =
        ⟨g.observe, OODALoop.orient g.observe,
          OODALoop.decide (OODALoop.orient g.observe), g.operational⟩) ∧
    ((⟨⟨10, 20, 19, 0⟩, ⟨5, 60, 0, none, CircuitBreakerState.CLOSED⟩,
        ⟨100, [(11, false)]⟩, true⟩ : OODALoop).get_status).1.decision =
      Decision.TRIP_CIRCUIT_BREAKER ∧
    ((⟨⟨10, 20, 19, 0⟩, ⟨5, 60, 0, none, CircuitBreakerState.CLOSED⟩,
        ⟨100, [(11, false)]⟩, true⟩ : OODALoop).get_status).2 =
      ⟨⟨10, 20, 19, 0⟩, ⟨5, 60, 0, none, CircuitBreakerState.CLOSED⟩,
        ⟨100, [(11, false)]⟩, true⟩ := by
  refine ⟨fun g => ⟨rfl, rfl⟩, ?_, rfl⟩
  norm_num +decide [OODALoop.get_status, OODALoop.observe, OODALoop.orient,
    OODALoop.decide, HealthMonitor.get_health_metrics]
